import Mathlib

/-!
Shallow embedding of `src/data_extraction.py` (CSV-to-PostgreSQL loader).

Python strings are modelled as Lean `String` (lists of `Char`), restricted to
the ASCII fragment of Python's character classes: `\w` is letters, digits and
underscore; `\s` is the six ASCII whitespace characters; `str.lower` lowers
the 26 ASCII capitals.  CSV files are modelled as the list of rows produced
by `csv.reader` (a list of lists of cell strings), and Python exceptions
(`StopIteration` from `next`) as `Option`/`Except` results.
-/

namespace DataExtraction

/-- ASCII fragment of Python's `\s` class (also what `str.strip` removes):
space, tab, newline, carriage return, vertical tab, form feed. -/
def isPySpace (c : Char) : Bool :=
  c = ' ' || c = '\t' || c = '\n' || c = '\r' || c = '\x0b' || c = '\x0c'

/-- ASCII fragment of Python's `\w` class: letters, digits and underscore. -/
def isWordChar (c : Char) : Bool :=
  c.isAlpha || c.isDigit || c = '_'

/-- The 26 ASCII uppercase letters. -/
def upperChars : List Char :=
  ['A', 'B', 'C', 'D', 'E', 'F', 'G', 'H', 'I', 'J', 'K', 'L', 'M',
   'N', 'O', 'P', 'Q', 'R', 'S', 'T', 'U', 'V', 'W', 'X', 'Y', 'Z']

/-- The 26 ASCII lowercase letters. -/
def lowerChars : List Char :=
  ['a', 'b', 'c', 'd', 'e', 'f', 'g', 'h', 'i', 'j', 'k', 'l', 'm',
   'n', 'o', 'p', 'q', 'r', 's', 't', 'u', 'v', 'w', 'x', 'y', 'z']

/-- ASCII fragment of Python's `str.lower`, one character at a time:
an uppercase letter moves down by 32 code points, all else is unchanged. -/
def pyLower (c : Char) : Char :=
  if c ∈ upperChars then Char.ofNat (c.toNat + 32) else c

/-- Python's `str.strip()` with no argument: drop leading and trailing
whitespace. -/
def pyStrip (l : List Char) : List Char :=
  (((l.dropWhile isPySpace).reverse).dropWhile isPySpace).reverse

/-- Python's `str.replace(old, new)` for a single-character pattern `old`. -/
def replaceStr (pat : Char) (rep : List Char) : List Char → List Char
  | [] => []
  | c :: cs => if c = pat then rep ++ replaceStr pat rep cs
               else c :: replaceStr pat rep cs

/-- The reserved-keyword list `SQL_KEYWORDS`, `src/data_extraction.py`
lines 23-28. -/
def SQL_KEYWORDS : List String :=
  ["select", "insert", "update", "delete", "from", "where", "join", "group",
   "order", "by", "having", "limit",
   "count", "distinct", "drop", "alter", "create", "table", "index",
   "database", "view", "primary", "foreign",
   "key", "null", "and", "or", "not", "as", "like", "in", "between",
   "exists", "union", "intersect", "except",
   "case", "when", "then", "else", "end", "default", "check", "unique",
   "cascade"]

/-- `shorten_column_name`, `src/data_extraction.py` lines 30-51.  Keeps a
prefix of `(max_length - 3) / 2` characters and a suffix of the remaining
`max_length - 3 - pfxLen` characters around a literal `xxx`.  Python's
`name[-k:]` is the whole string when `k = 0`, hence the guard (unreachable
at the default `max_length` of 63). -/
def shorten_column_name (name : List Char) (max_length : Nat := 63) : List Char :=
  if name.length ≤ max_length then name
  else
    let pfxLen := (max_length - 3) / 2
    let sfxLen := max_length - 3 - pfxLen
    name.take pfxLen ++ "xxx".toList
      ++ (if sfxLen = 0 then name else name.drop (name.length - sfxLen))

/-! ### Model of the external `num2words` library (English cardinals)

Modelled from the spec: the digit-run replacement on line 78 calls
`num2words(run, lang='en')` from the external `num2words` package, which is
not part of this repository.  The spec describes it as replacing a run of
digits "with its English word form".  We model the standard English cardinal
rendering that the library produces: hyphenated tens compounds
(`twenty-one`), the British `and` joining a hundreds or scale part to a final
part below one hundred, and comma-separated thousand groups; scale words
beyond `decillion` are rendered empty (a cut-off of the model, unreachable
in every concrete input considered here). -/

/-- English words for 0-19 (empty beyond, never used there). -/
def onesWord : Nat → String
  | 0 => "zero" | 1 => "one" | 2 => "two" | 3 => "three" | 4 => "four"
  | 5 => "five" | 6 => "six" | 7 => "seven" | 8 => "eight" | 9 => "nine"
  | 10 => "ten" | 11 => "eleven" | 12 => "twelve" | 13 => "thirteen"
  | 14 => "fourteen" | 15 => "fifteen" | 16 => "sixteen" | 17 => "seventeen"
  | 18 => "eighteen" | 19 => "nineteen" | _ => ""

/-- English words for the tens 20-90 (indexed by the tens digit). -/
def tensWord : Nat → String
  | 2 => "twenty" | 3 => "thirty" | 4 => "forty" | 5 => "fifty"
  | 6 => "sixty" | 7 => "seventy" | 8 => "eighty" | 9 => "ninety" | _ => ""

/-- English words for numbers below 100. -/
def sub100Words (n : Nat) : String :=
  if n < 20 then onesWord n
  else if n % 10 = 0 then tensWord (n / 10)
  else tensWord (n / 10) ++ "-" ++ onesWord (n % 10)

/-- English words for numbers below 1000. -/
def sub1000Words (n : Nat) : String :=
  if n < 100 then sub100Words n
  else if n % 100 = 0 then onesWord (n / 100) ++ " hundred"
  else onesWord (n / 100) ++ " hundred and " ++ sub100Words (n % 100)

/-- Scale words for the thousand groups. -/
def scaleWords : List String :=
  ["thousand", "million", "billion", "trillion", "quadrillion",
   "quintillion", "sextillion", "septillion", "octillion", "nonillion",
   "decillion"]

/-- Base-1000 digits of `n`, least significant first; the first argument is
fuel (structural, so that the kernel can evaluate it; `n` itself is always
enough fuel). -/
def thousandGroupsAux : Nat → Nat → List Nat
  | 0, _ => []
  | fuel + 1, n => if n = 0 then [] else n % 1000 :: thousandGroupsAux fuel (n / 1000)

/-- Base-1000 digits of `n`, least significant first. -/
def thousandGroups (n : Nat) : List Nat :=
  thousandGroupsAux n n

/-- Words for one thousand group `g` at scale index `i` (`i = 0` is the
units group). -/
def groupTerm (g : Nat) (i : Nat) : String :=
  sub1000Words g ++ (if i = 0 then "" else " " ++ scaleWords.getD (i - 1) "")

/-- Join the nonzero thousand groups (most significant first, paired with
their scale index): groups are comma-separated, except that a final group
below one hundred is attached with `and`. -/
def joinNum : List (Nat × Nat) → String
  | [] => ""
  | [(i, g)] => groupTerm g i
  | (i, g) :: rest =>
      groupTerm g i
        ++ (match rest with
            | [(0, g0)] => if g0 < 100 then " and " else ", "
            | _ => ", ")
        ++ joinNum rest

/-- English cardinal words for `n` in the conventions of `num2words`
(`lang='en'`). -/
def numToWords (n : Nat) : String :=
  if n = 0 then "zero"
  else joinNum (((thousandGroups n).enum.filter (fun p => p.2 ≠ 0)).reverse)

/-- Numeric value of a run of ASCII digits (leading zeros allowed, as in
`Decimal(run)`). -/
def natOfDigits (l : List Char) : Nat :=
  l.foldl (fun a c => 10 * a + (c.toNat - 48)) 0

/-- Replacement text for one maximal digit run, as produced by the
`num2words` call on line 78. -/
def flushRun (run : List Char) : List Char :=
  if run = [] then [] else (numToWords (natOfDigits run)).toList

/-- Worker for `re.sub(r'\d+', num2words, name)`: accumulates the current
maximal digit run in the first argument and replaces it with its English
words when it ends. -/
def expandGo : List Char → List Char → List Char
  | run, [] => flushRun run
  | run, c :: cs =>
      if c.isDigit then expandGo (run ++ [c]) cs
      else flushRun run ++ c :: expandGo [] cs

/-- `re.sub(r'\d+', lambda x: num2words(x.group(), lang='en'), name)`,
`src/data_extraction.py` line 78: every maximal run of digits is replaced
by the English words of its numeric value. -/
def expandDigits (l : List Char) : List Char :=
  expandGo [] l

/-! ### `format_column_name`, `src/data_extraction.py` lines 69-88 -/

/-- Lines 73-74: `name.replace("%", "percent").replace("/", "per")`. -/
def step_replace (l : List Char) : List Char :=
  replaceStr '/' "per".toList (replaceStr '%' "percent".toList l)

/-- Line 75: `re.sub(r"[^\w\s]", "", name)` — keep only word characters and
whitespace. -/
def step_strip_chars (l : List Char) : List Char :=
  l.filter (fun c => isWordChar c || isPySpace c)

/-- Line 78: digit runs to words, then `.replace('-', '_')`. -/
def step_expand (l : List Char) : List Char :=
  (expandDigits l).map (fun c => if c = '-' then '_' else c)

/-- Lines 80-81: `if len(name) > 63: name = shorten_column_name(name)`. -/
def step_shorten (l : List Char) : List Char :=
  if 63 < l.length then shorten_column_name l else l

/-- Line 83: `name.strip().lower().replace(" ", "_")`. -/
def step_finalize (l : List Char) : List Char :=
  ((pyStrip l).map pyLower).map (fun c => if c = ' ' then '_' else c)

/-- The value of `name` after line 83, just before the keyword check. -/
def format_column_pre (name : String) : String :=
  String.mk (step_finalize (step_shorten (step_expand (step_strip_chars (step_replace name.toList)))))

/-- `format_column_name`, `src/data_extraction.py` lines 69-88: the
transformation pipeline, then lines 85-86 prepend `sql_` when the result is
exactly a reserved keyword. -/
def format_column_name (name : String) : String :=
  let n := format_column_pre name
  if n ∈ SQL_KEYWORDS then "sql_" ++ n else n

/-- Exception-aware embedding of `format_column_name`: each statement of
lines 73-88 is sequenced in the `Except` monad, so a raising step would
surface as `Except.error`.  No string operation in the function can raise;
the external `num2words` call is modelled as total, following the spec
("replace any run of digits with its English word form"). -/
def format_column_nameE (name : String) : Except String String := do
  let n1 := step_replace name.toList
  let n2 := step_strip_chars n1
  let n3 := step_expand n2
  let n4 := step_shorten n3
  let n5 := step_finalize n4
  let s := String.mk n5
  if s ∈ SQL_KEYWORDS then pure ("sql_" ++ s) else pure s

/-! ### Type inference, `src/data_extraction.py` lines 90-136 -/

/-- Python's `str.isdigit()` (ASCII fragment): nonempty and every character
a digit. -/
def pyIsDigit (v : String) : Bool :=
  !v.toList.isEmpty && v.toList.all Char.isDigit

/-- Consume `('_' digit+)*` after an initial digit group, failing when an
underscore is not followed by a digit (Python numeric literals allow
underscores only between digits).  The first argument is fuel (structural;
the length of the list is always enough). -/
def eatUAux : Nat → List Char → Option (List Char)
  | _, [] => some []
  | 0, l => some l
  | fuel + 1, '_' :: r =>
      if (r.takeWhile Char.isDigit).isEmpty then none
      else eatUAux fuel (r.dropWhile Char.isDigit)
  | _ + 1, l => some l

/-- Consume `digit+ ('_' digit+)*`; `none` when the list does not start with
a digit or an underscore group is malformed, otherwise the rest of the
list. -/
def eatDigitsU (l : List Char) : Option (List Char) :=
  if (l.takeWhile Char.isDigit).isEmpty then none
  else eatUAux l.length (l.dropWhile Char.isDigit)

/-- Exponent part of a Python float literal: either nothing, or
`(e|E) sign? digit+` consuming the whole rest. -/
def parseExpPart : List Char → Bool
  | [] => true
  | c :: r =>
      if c = 'e' || c = 'E' then
        let r' := match r with
          | '+' :: r' => r'
          | '-' :: r' => r'
          | _ => r
        match eatDigitsU r' with
        | some [] => true
        | _ => false
      else false

/-- Mantissa-and-exponent part of a Python float literal (sign already
consumed): `digit+ ('.' digit*)? exp?` or `'.' digit+ exp?`. -/
def parseNumeric (l : List Char) : Bool :=
  match eatDigitsU l with
  | some r =>
      let r2 := match r with
        | '.' :: r' =>
            (match eatDigitsU r' with
             | some r'' => r''
             | none => r')
        | _ => r
      parseExpPart r2
  | none =>
      match l with
      | '.' :: r' =>
          (match eatDigitsU r' with
           | some r'' => parseExpPart r''
           | none => false)
      | _ => false

/-- `is_float`, `src/data_extraction.py` lines 121-127: whether Python's
`float(value)` succeeds.  Modelled as the CPython grammar for float strings
(ASCII fragment): surrounding whitespace, an optional sign, then either an
infinity/NaN word (case-insensitive) or a decimal literal with optional
underscores, fraction and exponent. -/
def is_float (v : String) : Bool :=
  let l := pyStrip v.toList
  let l := match l with
    | '+' :: r => r
    | '-' :: r => r
    | _ => l
  let low := l.map pyLower
  if low = "inf".toList || low = "infinity".toList || low = "nan".toList then true
  else parseNumeric l

/-- Modelled from the spec: `is_date` (lines 129-136) delegates to
`dateutil.parser.parse`, an external library that is not part of this
repository; the spec calls it "a permissive date-parsing routine".  The
model recognises ISO `YYYY-MM-DD` strings with a plausible month and day,
which is what the claims exercise (`"2021-01-01"` parses, `"Paris"` and
plain numbers in the other branches do not reach this test). -/
def is_date (v : String) : Bool :=
  match v.toList with
  | [y1, y2, y3, y4, '-', m1, m2, '-', d1, d2] =>
      y1.isDigit && y2.isDigit && y3.isDigit && y4.isDigit &&
      m1.isDigit && m2.isDigit && d1.isDigit && d2.isDigit &&
      (let m := natOfDigits [m1, m2]
       let d := natOfDigits [d1, d2]
       1 ≤ m && m ≤ 12 && 1 ≤ d && d ≤ 31)
  | _ => false

/-- The per-value classifier inside `infer_column_types`,
`src/data_extraction.py` lines 106-114: `INT` for all-digit strings, else
`FLOAT` when `float()` accepts the value, else `DATE` when the date parser
accepts it, else `VARCHAR`. -/
def classifyValue (v : String) : String :=
  if pyIsDigit v then "INT"
  else if is_float v then "FLOAT"
  else if is_date v then "DATE"
  else "VARCHAR"

/-- `infer_column_types`, `src/data_extraction.py` lines 90-119.  The CSV
file is modelled as the list of rows `csv.reader` yields.  The two `next`
calls raise `StopIteration` when the file has fewer than two rows,
modelled as `none`; otherwise the first column of the header and of the
sample row is dropped, the sample values are classified, and the header is
normalized. -/
def infer_column_types (rows : List (List String)) : Option (List String × List String) :=
  match rows with
  | header :: sample_row :: _ =>
      some ((header.drop 1).map format_column_name,
            (sample_row.drop 1).map classifyValue)
  | _ => none

/-! ### Table loader, `src/data_extraction.py` lines 138-174 -/

/-- Comma-space join, Python's `", ".join`. -/
def joinComma (l : List String) : String :=
  String.intercalate ", " l

/-- `create_table_from_csv`, `src/data_extraction.py` lines 138-151:
infer the schema (propagating its exception as `none`), then build the
`CREATE TABLE` statement that is executed on the cursor.  Returns the
ordered normalized column list, the types, and the executed statement. -/
def create_table_from_csv (table_name : String) (rows : List (List String)) :
    Option (List String × List String × String) :=
  (infer_column_types rows).map (fun p =>
    let headerCols := p.1
    let column_types := p.2
    let columns := joinComma ((List.zip headerCols column_types).map
      (fun ct => ct.1 ++ " " ++ ct.2))
    (headerCols, column_types,
      "\n    CREATE TABLE IF NOT EXISTS " ++ table_name ++ " (\n        "
        ++ columns ++ "\n    );\n    "))

/-- The list of statements `create_table_from_csv` executes on the cursor:
empty when type inference raises before line 150, otherwise the single
`CREATE TABLE` statement. -/
def create_table_statements (table_name : String) (rows : List (List String)) :
    List String :=
  match create_table_from_csv table_name rows with
  | none => []
  | some r => [r.2.2]

/-- `insert_data_from_csv`, `src/data_extraction.py` lines 153-174: re-read
the file, drop the header row (raising `StopIteration`, modelled `none`,
on an empty file), normalize the header minus its first column, build one
parameterized `INSERT` statement, and execute it once per remaining row
with the row minus its first column as parameters.  Returns the ordered
normalized column list, the statement, and the executed parameter rows. -/
def insert_data_from_csv (table_name : String) (rows : List (List String)) :
    Option (List String × String × List (List String)) :=
  match rows with
  | [] => none
  | header :: dataRows =>
      let formatted_header := (header.drop 1).map format_column_name
      let placeholders := joinComma (formatted_header.map (fun _ => "%s"))
      let insert_query := "INSERT INTO " ++ table_name ++ " ("
        ++ joinComma formatted_header ++ ") VALUES (" ++ placeholders ++ ")"
      some (formatted_header, insert_query, dataRows.map (List.drop 1))

/-! ### Helper lemmas -/

theorem replaceStr_id {pat : Char} {rep l : List Char}
    (h : ∀ c ∈ l, c ≠ pat) : replaceStr pat rep l = l := by
  induction l with
  | nil => rfl
  | cons c cs ih =>
      have hc : c ≠ pat := h c (List.mem_cons_self c cs)
      simp only [replaceStr, if_neg hc]
      exact congrArg (c :: ·) (ih fun x hx => h x (List.mem_cons_of_mem c hx))

theorem expandGo_no_digit {l : List Char}
    (h : ∀ c ∈ l, c.isDigit = false) : expandGo [] l = l := by
  induction l with
  | nil => rfl
  | cons c cs ih =>
      have hc : c.isDigit = false := h c (List.mem_cons_self c cs)
      simp only [expandGo, hc, Bool.false_eq_true, if_neg (Bool.false_ne_true ∘ (hc ▸ ·))]
      simp only [flushRun, if_pos rfl, List.nil_append]
      exact congrArg (c :: ·) (ih fun x hx => h x (List.mem_cons_of_mem c hx))

theorem expandDigits_id {l : List Char}
    (h : ∀ c ∈ l, c.isDigit = false) : expandDigits l = l :=
  expandGo_no_digit h

theorem map_id_of {f : Char → Char} {l : List Char}
    (h : ∀ c ∈ l, f c = c) : l.map f = l := by
  induction l with
  | nil => rfl
  | cons c cs ih =>
      simp only [List.map_cons, h c (List.mem_cons_self c cs)]
      exact congrArg (c :: ·) (ih fun x hx => h x (List.mem_cons_of_mem c hx))

theorem dropWhile_id_of {p : Char → Bool} {l : List Char}
    (h : ∀ c ∈ l, p c = false) : l.dropWhile p = l := by
  cases l with
  | nil => rfl
  | cons c cs =>
      simp only [List.dropWhile_cons, h c (List.mem_cons_self c cs),
        Bool.false_eq_true, if_false]

theorem pyStrip_id {l : List Char}
    (h : ∀ c ∈ l, isPySpace c = false) : pyStrip l = l := by
  unfold pyStrip
  rw [dropWhile_id_of h, dropWhile_id_of (fun c hc => h c (List.mem_reverse.mp hc)),
    List.reverse_reverse]

theorem pyStrip_all_space {l : List Char}
    (h : ∀ c ∈ l, isPySpace c = true) : pyStrip l = [] := by
  unfold pyStrip
  rw [List.dropWhile_eq_nil_iff.mpr h]
  rfl

theorem length_pyStrip_le (l : List Char) : (pyStrip l).length ≤ l.length := by
  unfold pyStrip
  calc ((((l.dropWhile isPySpace).reverse).dropWhile isPySpace).reverse).length
      = (((l.dropWhile isPySpace).reverse).dropWhile isPySpace).length :=
        List.length_reverse _
    _ ≤ ((l.dropWhile isPySpace).reverse).length :=
        (List.dropWhile_suffix isPySpace).sublist.length_le
    _ = (l.dropWhile isPySpace).length := List.length_reverse _
    _ ≤ l.length := (List.dropWhile_suffix isPySpace).sublist.length_le

theorem length_shorten {l : List Char} (h : 63 < l.length) :
    (shorten_column_name l).length = 63 := by
  unfold shorten_column_name
  rw [if_neg (by omega)]
  have h30 : (63 - 3) / 2 = 30 := by norm_num
  simp only [h30]
  rw [if_neg (by norm_num)]
  simp only [List.length_append, List.length_take, List.length_drop]
  have : ("xxx".toList).length = 3 := by decide
  omega

theorem length_step_shorten_le (l : List Char) : (step_shorten l).length ≤ 63 := by
  unfold step_shorten
  split
  · exact le_of_eq (length_shorten (by omega))
  · omega

theorem length_step_finalize_le (l : List Char) :
    (step_finalize l).length ≤ l.length := by
  unfold step_finalize
  rw [List.length_map, List.length_map]
  exact length_pyStrip_le l

theorem pyLower_not_upper (c : Char) : pyLower c ∉ upperChars := by
  unfold pyLower
  split
  · rename_i h
    fin_cases h <;> decide
  · assumption

theorem step_finalize_not_upper (l : List Char) :
    ∀ c ∈ step_finalize l, c ∉ upperChars := by
  intro c hc
  unfold step_finalize at hc
  rcases List.mem_map.mp hc with ⟨d, hd, hdc⟩
  rcases List.mem_map.mp hd with ⟨e, _, hed⟩
  subst hdc hed
  split
  · decide
  · exact pyLower_not_upper e

theorem kw_length : ∀ k ∈ SQL_KEYWORDS, k.length ≤ 9 := by decide

theorem kw_no_sql_prefix : ∀ k ∈ SQL_KEYWORDS,
    k.data.take 4 ≠ ['s', 'q', 'l', '_'] := by decide

theorem pySpace_not_digit_not_hyphen {c : Char} (h : isPySpace c = true) :
    c.isDigit = false ∧ c ≠ '-' := by
  simp only [isPySpace, Bool.or_eq_true, decide_eq_true_eq] at h
  rcases h with ((((h | h) | h) | h) | h) | h <;> subst h <;>
    exact ⟨by decide, by decide⟩

theorem lower_facts : ∀ c ∈ lowerChars,
    (isWordChar c || isPySpace c) = true ∧ c.isDigit = false ∧ pyLower c = c ∧
    isPySpace c = false ∧ c ≠ '%' ∧ c ≠ '/' ∧ c ≠ '-' ∧ c ≠ ' ' := by decide

/-! ### Claim theorems -/

/-- C2 counterexample: normalizing `"Q3/2021"` does not give
`"qthree_per_twozerotwoone"`: the slash is replaced by a bare `per` with no
surrounding underscores, and the whole digit run `2021` is converted as one
number (`two thousand and twenty-one`), not digit by digit. -/
theorem format_q3_counterexample :
    format_column_name "Q3/2021" = "qthreepertwo_thousand_and_twenty_one" ∧
    format_column_name "Q3/2021" ≠ "qthree_per_twozerotwoone" := by decide

/-- C2 (amended): normalizing `"Revenue %"` yields `"revenue_percent"`, and
normalizing `"Q3/2021"` yields `"qthreepertwo_thousand_and_twenty_one"`:
`/` becomes `per` with no separators, and each contiguous digit run is
converted as a single number to its English word form, whose spaces become
underscores. -/
theorem format_examples :
    format_column_name "Revenue %" = "revenue_percent" ∧
    format_column_name "Q3/2021" = "qthreepertwo_thousand_and_twenty_one" := by
  decide

/-- C3: every sample value is classified `INT` when it is a nonempty
all-digit string, else `FLOAT` when Python's `float` accepts it, else `DATE`
when the permissive date parser accepts it, else `VARCHAR`; and on the
sample row `["id", "3", "4.5", "2021-01-01", "Paris"]` with the first
column dropped the inferred types are `[INT, FLOAT, DATE, VARCHAR]`. -/
theorem infer_types_classification :
    (∀ v : String,
      (pyIsDigit v = true → classifyValue v = "INT") ∧
      (pyIsDigit v = false → is_float v = true → classifyValue v = "FLOAT") ∧
      (pyIsDigit v = false → is_float v = false → is_date v = true →
        classifyValue v = "DATE") ∧
      (pyIsDigit v = false → is_float v = false → is_date v = false →
        classifyValue v = "VARCHAR")) ∧
    (["id", "3", "4.5", "2021-01-01", "Paris"].drop 1).map classifyValue
      = ["INT", "FLOAT", "DATE", "VARCHAR"] := by
  refine ⟨fun v => ⟨?_, ?_, ?_, ?_⟩, by decide⟩
  · intro h1
    simp [classifyValue, h1]
  · intro h1 h2
    simp [classifyValue, h1, h2]
  · intro h1 h2 h3
    simp [classifyValue, h1, h2, h3]
  · intro h1 h2 h3
    simp [classifyValue, h1, h2, h3]

/-- C3 witness: the classifier applied to the concrete value
`"2021-01-01"` of the sample row. -/
theorem infer_types_classification_witness :
    classifyValue "2021-01-01" = "DATE" :=
  (infer_types_classification.1 "2021-01-01").2.2.1 (by decide) (by decide)
    (by decide)

/-- C5: a run of `insert_data_from_csv` on a CSV with a header row executes
one parameterized INSERT per data row: exactly `rows.length - 1` of them. -/
theorem insert_count (t : String) (rows : List (List String))
    (h : rows ≠ []) :
    (insert_data_from_csv t rows).map (fun r => r.2.2.length)
      = some (rows.length - 1) := by
  match rows with
  | [] => exact absurd rfl h
  | header :: dataRows =>
      simp [insert_data_from_csv]

/-- C5 witness: a CSV with a header row and two data rows executes exactly
two INSERTs. -/
theorem insert_count_witness :
    (insert_data_from_csv "t" [["k", "a"], ["1", "x"], ["2", "y"]]).map
      (fun r => r.2.2.length) = some 2 :=
  insert_count "t" [["k", "a"], ["1", "x"], ["2", "y"]] (by decide)

/-- C7: whenever the normalized result (the value of `name` after line 83)
is exactly a reserved SQL keyword, `format_column_name` prefixes it with
`sql_`. -/
theorem format_keyword_prefixed (name : String)
    (h : format_column_pre name ∈ SQL_KEYWORDS) :
    format_column_name name = "sql_" ++ format_column_pre name := by
  unfold format_column_name
  rw [if_pos h]

/-- C7 witness: `"SELECT"` normalizes to the keyword `select` and is
prefixed to `sql_select`. -/
theorem format_keyword_prefixed_witness :
    format_column_pre "SELECT" ∈ SQL_KEYWORDS ∧
    format_column_name "SELECT" = "sql_select" := by
  have h : format_column_pre "SELECT" ∈ SQL_KEYWORDS := by decide
  refine ⟨h, ?_⟩
  rw [format_keyword_prefixed "SELECT" h]
  decide

/-- C10: on a CSV with fewer than two rows, `infer_column_types` raises
(`none` in the model) instead of returning a schema, so
`create_table_from_csv` aborts before executing any CREATE TABLE
statement. -/
theorem infer_requires_two_rows (t : String) (rows : List (List String))
    (h : rows.length < 2) :
    infer_column_types rows = none ∧ create_table_from_csv t rows = none ∧
    create_table_statements t rows = [] := by
  match rows with
  | [] => exact ⟨rfl, rfl, rfl⟩
  | [r] => exact ⟨rfl, rfl, rfl⟩
  | a :: b :: rest =>
      simp only [List.length_cons] at h
      omega

/-- C10 witness: the empty CSV file. -/
theorem infer_requires_two_rows_witness :
    infer_column_types ([] : List (List String)) = none ∧
    create_table_from_csv "t" [] = none ∧
    create_table_statements "t" [] = [] :=
  infer_requires_two_rows "t" [] (by decide)

/-- C1 counterexample: on the input `"a\tb"` the output keeps the tab
character, which is neither a word character nor an underscore — only the
space character is collapsed to an underscore. -/
theorem format_column_name_tab_counterexample :
    format_column_name "a\tb" = "a\tb" ∧ '\t' ∈ (format_column_name "a\tb").data ∧
    isWordChar '\t' = false ∧ '\t' ≠ '_' := by decide

/-- C1 (amended): for every input header string the output of
`format_column_name` is at most 63 characters long, contains no uppercase
letter, and is never equal to a reserved SQL keyword; it may however
contain characters other than word characters and underscores (e.g. a tab,
or a comma from number-word expansion). -/
theorem format_column_name_bounds (name : String) :
    (format_column_name name).length ≤ 63 ∧
    (∀ c ∈ (format_column_name name).data, c ∉ upperChars) ∧
    format_column_name name ∉ SQL_KEYWORDS := by
  unfold format_column_name
  have hlen : (format_column_pre name).length ≤ 63 := by
    unfold format_column_pre
    rw [String.length_mk]
    exact le_trans (length_step_finalize_le _) (length_step_shorten_le _)
  have hchars : ∀ c ∈ (format_column_pre name).data, c ∉ upperChars := by
    unfold format_column_pre
    exact step_finalize_not_upper _
  by_cases hk : format_column_pre name ∈ SQL_KEYWORDS
  · rw [if_pos hk]
    refine ⟨?_, ?_, ?_⟩
    · rw [String.length_append]
      have h9 := kw_length _ hk
      have h4 : ("sql_" : String).length = 4 := by decide
      omega
    · intro c hc
      rw [String.data_append] at hc
      rcases List.mem_append.mp hc with h | h
      · have hsql : ("sql_" : String).data = ['s', 'q', 'l', '_'] := by decide
        rw [hsql] at h
        fin_cases h <;> decide
      · exact hchars c h
    · intro hmem
      have hpre : ("sql_" ++ format_column_pre name).data.take 4
          = ['s', 'q', 'l', '_'] := by
        rw [String.data_append]
        rfl
      exact kw_no_sql_prefix _ hmem hpre
  · rw [if_neg hk]
    exact ⟨hlen, hchars, hk⟩

/-- C1 witness: the bounds at the concrete input `"Select"`, whose
normalization hits the keyword branch. -/
theorem format_column_name_bounds_witness :
    format_column_name "Select" ∉ SQL_KEYWORDS ∧ 's' ∉ upperChars :=
  ⟨(format_column_name_bounds "Select").2.2,
   (format_column_name_bounds "Select").2.1 's' (by decide)⟩

/-- C4: for the same CSV rows and the same table name, the ordered
normalized column list used in the CREATE TABLE statement equals the one
used in the INSERT statement. -/
theorem create_insert_columns_match (t : String) (rows : List (List String))
    (c : List String × List String × String)
    (i : List String × String × List (List String))
    (hc : create_table_from_csv t rows = some c)
    (hi : insert_data_from_csv t rows = some i) :
    c.1 = i.1 := by
  match rows with
  | [] => simp [insert_data_from_csv] at hi
  | [h] => simp [create_table_from_csv, infer_column_types] at hc
  | h :: s :: rest =>
      simp only [create_table_from_csv, infer_column_types, Option.map_some',
        Option.some.injEq] at hc
      simp only [insert_data_from_csv, Option.some.injEq] at hi
      rw [← hc, ← hi]

/-- C4 witness: a concrete two-row load, with both hypotheses discharged by
evaluation. -/
theorem create_insert_columns_match_witness :
    ((["revenue_percent"], ["FLOAT"],
      "\n    CREATE TABLE IF NOT EXISTS t (\n        revenue_percent FLOAT\n    );\n    ")
        : List String × List String × String).1
      = ((["revenue_percent"], "INSERT INTO t (revenue_percent) VALUES (%s)",
          [["2.5"]]) : List String × String × List (List String)).1 :=
  create_insert_columns_match "t" [["k", "Revenue %"], ["1", "2.5"]] _ _
    (by decide) (by decide)

/-- C8: the exception-aware embedding of `format_column_name` returns
normally on every input, with the same result as the pure function: no
error branch is reachable, oversized names being shortened and unrecognized
characters stripped inline. -/
theorem format_column_name_total (name : String) :
    format_column_nameE name = Except.ok (format_column_name name) := by
  unfold format_column_nameE format_column_name format_column_pre
  dsimp only
  split <;> rfl

/-- C9 counterexample: a whitespace-only input yields the empty string —
which contains no underscore at all — because the final `strip()` removes
the whitespace before spaces would be replaced by underscores. -/
theorem format_whitespace_counterexample :
    format_column_name "   " = "" ∧ '_' ∉ (format_column_name "   ").data ∧
    (format_column_name "   ").length = 0 := by decide

/-- C9 (amended): an input that is empty or reduced to nothing but
whitespace by the character-stripping step (of at most 63 characters)
normalizes to the empty string: the trailing `strip()` removes all of it,
so no underscores are produced. -/
theorem format_fully_stripped (name : String)
    (hws : ∀ c ∈ step_strip_chars (step_replace name.toList), isPySpace c = true)
    (hlen : (step_strip_chars (step_replace name.toList)).length ≤ 63) :
    format_column_name name = "" := by
  unfold format_column_name format_column_pre
  have h3 : expandDigits (step_strip_chars (step_replace name.toList))
      = step_strip_chars (step_replace name.toList) :=
    expandDigits_id (fun c hc => (pySpace_not_digit_not_hyphen (hws c hc)).1)
  have h4 : step_expand (step_strip_chars (step_replace name.toList))
      = step_strip_chars (step_replace name.toList) := by
    unfold step_expand
    rw [h3]
    exact map_id_of (fun c hc =>
      if_neg (pySpace_not_digit_not_hyphen (hws c hc)).2)
  have h5 : step_shorten (step_strip_chars (step_replace name.toList))
      = step_strip_chars (step_replace name.toList) := by
    unfold step_shorten
    rw [if_neg (by omega)]
  have h6 : step_finalize (step_strip_chars (step_replace name.toList)) = [] := by
    unfold step_finalize
    rw [pyStrip_all_space hws]
    rfl
  rw [h4, h5, h6]
  decide

/-- C9 witness: the three-space input. -/
theorem format_fully_stripped_witness :
    format_column_name "   " = "" :=
  format_fully_stripped "   " (by decide) (by decide)

/-- C6 counterexample: a 70-character input need not normalize to 63
characters — 70 exclamation marks are stripped entirely, and the empty
result is never shortened. -/
theorem format_seventy_counterexample :
    (String.mk (List.replicate 70 '!')).length = 70 ∧
    format_column_name (String.mk (List.replicate 70 '!')) = "" ∧
    (format_column_name (String.mk (List.replicate 70 '!'))).length ≠ 63 := by
  decide

/-- C6 (amended): for a 70-character input that the earlier steps leave
unchanged (e.g. all lowercase letters), the output is exactly 63 characters:
the first `(63 - 3) / 2 = 30` characters and the last `63 - 3 - 30 = 30`
characters of the expanded name joined by the fixed separator `xxx`. -/
theorem format_seventy_letters (name : String) (h70 : name.length = 70)
    (hlow : ∀ c ∈ name.data, c ∈ lowerChars) :
    format_column_name name
      = String.mk (name.data.take 30 ++ "xxx".toList ++ name.data.drop 40) ∧
    (format_column_name name).length = 63 := by
  have hdata : name.data.length = 70 := h70
  have hfacts := fun c hc => lower_facts c (hlow c hc)
  have h1 : step_replace name.data = name.data := by
    unfold step_replace
    rw [replaceStr_id (fun c hc => (hfacts c hc).2.2.2.2.1),
        replaceStr_id (fun c hc => (hfacts c hc).2.2.2.2.2.1)]
  have h2 : step_strip_chars name.data = name.data :=
    List.filter_eq_self.mpr (fun c hc => (hfacts c hc).1)
  have h3 : expandDigits name.data = name.data :=
    expandDigits_id (fun c hc => (hfacts c hc).2.1)
  have h4 : step_expand name.data = name.data := by
    unfold step_expand
    rw [h3]
    exact map_id_of (fun c hc => if_neg (hfacts c hc).2.2.2.2.2.2.1)
  have h5 : step_shorten name.data
      = name.data.take 30 ++ "xxx".toList ++ name.data.drop 40 := by
    unfold step_shorten
    rw [if_pos (by omega)]
    unfold shorten_column_name
    rw [if_neg (by omega)]
    have h30 : (63 - 3) / 2 = 30 := by norm_num
    simp only [h30]
    rw [if_neg (by norm_num), hdata]
  have hM : ∀ c ∈ name.data.take 30 ++ "xxx".toList ++ name.data.drop 40,
      c ∈ lowerChars := by
    intro c hc
    rcases List.mem_append.mp hc with hc | hc
    · rcases List.mem_append.mp hc with hc | hc
      · exact hlow c (List.take_subset 30 name.data hc)
      · have hx : ("xxx".toList) = ['x', 'x', 'x'] := by decide
        rw [hx] at hc
        fin_cases hc <;> decide
    · exact hlow c (List.drop_subset 40 name.data hc)
  have hMfacts := fun c hc => lower_facts c (hM c hc)
  have h6 : step_finalize (name.data.take 30 ++ "xxx".toList ++ name.data.drop 40)
      = name.data.take 30 ++ "xxx".toList ++ name.data.drop 40 := by
    unfold step_finalize
    rw [pyStrip_id (fun c hc => (hMfacts c hc).2.2.2.1),
        map_id_of (fun c hc => (hMfacts c hc).2.2.1),
        map_id_of (fun c hc => if_neg (hMfacts c hc).2.2.2.2.2.2.2)]
  have hMlen : (name.data.take 30 ++ "xxx".toList ++ name.data.drop 40).length
      = 63 := by
    have hx3 : ("xxx".toList).length = 3 := by decide
    simp only [List.length_append, List.length_take, List.length_drop, hdata,
      hx3]
    norm_num
  have hpre : format_column_pre name
      = String.mk (name.data.take 30 ++ "xxx".toList ++ name.data.drop 40) := by
    unfold format_column_pre
    show String.mk (step_finalize (step_shorten (step_expand
      (step_strip_chars (step_replace name.data))))) = _
    rw [h1, h2, h4, h5, h6]
  have hkw : format_column_pre name ∉ SQL_KEYWORDS := by
    intro hmem
    have h9 := kw_length _ hmem
    rw [hpre, String.length_mk, hMlen] at h9
    omega
  have hout : format_column_name name
      = String.mk (name.data.take 30 ++ "xxx".toList ++ name.data.drop 40) := by
    unfold format_column_name
    rw [if_neg hkw, hpre]
  refine ⟨hout, ?_⟩
  rw [hout, String.length_mk, hMlen]

/-- C6 witness: seventy letters `a`. -/
theorem format_seventy_letters_witness :
    format_column_name (String.mk (List.replicate 70 'a'))
      = String.mk ((List.replicate 70 'a').take 30 ++ "xxx".toList
          ++ (List.replicate 70 'a').drop 40) ∧
    (format_column_name (String.mk (List.replicate 70 'a'))).length = 63 :=
  format_seventy_letters (String.mk (List.replicate 70 'a')) (by decide)
    (by decide)

end DataExtraction
